import Mathlib

/-!
Verification of the LAVA runtime module (`kernelci/runtime/lava/__init__.py`).

The module's logic is embedded shallowly:

* the regular expression `CROS_CONFIG_RE` (a concrete pattern with three
  mandatory groups and one optional group) is embedded as a deterministic
  matcher on `List Char` with Python `re.match` semantics: anchored at the
  start of the string only, unanchored at the end, greedy character-class
  repetition with backtracking.  The classes of groups 1 (`[0-9.]+`) and
  2 (`[a-z0-9_]+`) do not contain the `'/'` that must follow them, so for
  those groups greedy matching with backtracking reduces to taking the
  maximal run; group 3 (`[a-z0-9-._]+`) is followed by `.flavour.config`
  whose unescaped dots match any character, so full longest-first
  backtracking is implemented for it (`tryGroup3`).
* Python `int()` applied to the (exact, for these magnitudes) float
  quotients in `_get_priority` truncates toward zero; this is `Int.tdiv`
  on the exact integer numerator.
* fallible steps (a failed regex match makes `.groups()` raise) return
  `Option`.
-/

/-- Character class `[0-9.]` of group 1 of `CROS_CONFIG_RE`. -/
def isKverChar (c : Char) : Bool := c.isDigit || c == '.'

/-- Lower-case ASCII letter, `[a-z]`. -/
def isLowerAZ (c : Char) : Bool := 'a' ≤ c && c ≤ 'z'

/-- Character class `[a-z0-9_]` of group 2 of `CROS_CONFIG_RE`. -/
def isArchChar (c : Char) : Bool := isLowerAZ c || c.isDigit || c == '_'

/-- Character class `[a-z0-9-._]` of group 3 of `CROS_CONFIG_RE`. -/
def isFlavChar (c : Char) : Bool :=
  isLowerAZ c || c.isDigit || c == '-' || c == '.' || c == '_'

/-- Character class `[a-z0-9-+]` of group 4 of `CROS_CONFIG_RE`. -/
def isFragChar (c : Char) : Bool :=
  isLowerAZ c || c.isDigit || c == '-' || c == '+'

/-- The regex metacharacter `.` (default mode: any character except newline). -/
def isAnyChar (c : Char) : Bool := c != '\n'

/-- Split a list into the maximal leading run satisfying `p` and the rest. -/
def takeRun (p : Char → Bool) : List Char → List Char × List Char
  | [] => ([], [])
  | c :: cs =>
    if p c then
      let (r, rest) := takeRun p cs
      (c :: r, rest)
    else ([], c :: cs)

/-- Match a literal string at the head of `s`; return the remainder. -/
def dropLit : List Char → List Char → Option (List Char)
  | [], s => some s
  | _ :: _, [] => none
  | p :: ps, c :: cs => if p = c then dropLit ps cs else none

/-- Match the optional group 4, `(\+[a-z0-9-+]+)?`, at the head of the
remaining input.  Returns the captured group (leading `'+'` included, as
Python captures it) or `none` when the group does not participate.
Trailing unmatched input is allowed (`re.match` is not anchored at the
end). -/
def matchFrag : List Char → Option (List Char)
  | '+' :: cs =>
    let (r, _) := takeRun isFragChar cs
    if r.isEmpty then none else some ('+' :: r)
  | _ => none

/-- Match `.flavour.config(\+[a-z0-9-+]+)?` (the part of `CROS_CONFIG_RE`
after group 3; the two dots are unescaped and match any character) at the
head of the input. `none` means no match; `some frag` is a match capturing
the optional group 4 as `frag`. -/
def matchTail (s : List Char) : Option (Option (List Char)) :=
  match s with
  | c :: cs =>
    if isAnyChar c then
      match dropLit "flavour".data cs with
      | some (d :: ds) =>
        if isAnyChar d then
          match dropLit "config".data ds with
          | some rest => some (matchFrag rest)
          | none => none
        else none
      | _ => none
    else none
  | [] => none

/-- Greedy matching with backtracking for group 3 followed by the tail of
the pattern.  `rrun` is the reversed current candidate for group 3 (so the
longest candidate, the full maximal run of `isFlavChar`, is tried first),
`rest` is the input after it.  On failure the candidate is shortened from
its end one character at a time; the empty candidate is not allowed
(`+` requires at least one repetition). -/
def tryGroup3 : List Char → List Char → Option (List Char × Option (List Char))
  | [], _ => none
  | c :: rrun, rest =>
    match matchTail rest with
    | some frag => some ((c :: rrun).reverse, frag)
    | none => tryGroup3 rrun (c :: rest)

/-- The four capture groups of `CROS_CONFIG_RE`:
`cros://chromeos-([0-9.]+)/([a-z0-9_]+)/([a-z0-9-._]+).flavour.config(\+[a-z0-9-+]+)?`.
The code binds them, in order, to `kver`, `arch`, `flav`, `frag`. -/
structure CrosGroups where
  kver : String
  arch : String
  flav : String
  frag : Option String
deriving DecidableEq

/-- `CROS_CONFIG_RE.match` on the character list of the input: anchored at
the start, unanchored at the end.  Groups 1 and 2 are maximal runs of
their classes (their classes exclude the mandatory `'/'` that follows, so
backtracking cannot produce anything shorter); group 3 backtracks
longest-first via `tryGroup3`. -/
def crosMatchList (s : List Char) : Option CrosGroups :=
  match dropLit "cros://chromeos-".data s with
  | none => none
  | some s1 =>
    let (kver, s2) := takeRun isKverChar s1
    if kver.isEmpty then none
    else
      match s2 with
      | '/' :: s3 =>
        let (arch, s4) := takeRun isArchChar s3
        if arch.isEmpty then none
        else
          match s4 with
          | '/' :: s5 =>
            let (run, rest) := takeRun isFlavChar s5
            match tryGroup3 run.reverse rest with
            | some (flav, frag) =>
              some ⟨⟨kver⟩, ⟨arch⟩, ⟨flav⟩, frag.map (⟨·⟩)⟩
            | none => none
          | _ => none
      | _ => none

/-- `CROS_CONFIG_RE.match(defconfig)`: `none` models a failed match (on
which the code's `.groups()` raises). -/
def crosMatch (s : String) : Option CrosGroups := crosMatchList s.data

/-- The `CROS_FLAVOURS` lookup table of the module, in source order. -/
def CROS_FLAVOURS : List (String × String) :=
  [("chromeos-amd-stoneyridge", "ston"),
   ("chromeos-intel-denverton", "denv"),
   ("chromeos-intel-pineview", "pine"),
   ("chromiumos-arm", "arm"),
   ("chromiumos-arm64", "arm64"),
   ("chromiumos-mediatek", "mtk"),
   ("chromiumos-qualcomm", "qcom"),
   ("chromiumos-rockchip", "rk32"),
   ("chromiumos-rockchip64", "rk64"),
   ("chromiumos-x86_64", "x86")]

/-- The `CROS_DEVICE_TYPES` lookup table of the module, in source order. -/
def CROS_DEVICE_TYPES : List (String × String) :=
  [("hp-x360-12b-ca0500na-n4000-octopus_chromeos", "octopus-n4000"),
   ("hp-x360-12b-ca0010nr-n4020-octopus_chromeos", "octopus-n4020"),
   ("qemu_x86_64-uefi-chromeos", "qemu-x86")]

/-- Python `d.get(k) or k`: the stored value unless the key is absent or
its value is falsy (the empty string). -/
def lookupOrSelf (table : List (String × String)) (k : String) : String :=
  match table.lookup k with
  | some v => if v = "" then k else v
  | none => k

/-- Python `frag.strip('+')`: remove `'+'` from both ends. -/
def stripPlus (l : List Char) : List Char :=
  ((l.dropWhile (· == '+')).reverse.dropWhile (· == '+')).reverse

/-- Python `frag.replace('+', '-')`: a single-character pattern, so a
character-wise substitution. -/
def plusToDash (l : List Char) : List Char :=
  l.map fun c => if c == '+' then '-' else c

/-- `LavaRuntime._shorten_cros_defconfig`.  `none` models the exception
raised when `CROS_CONFIG_RE.match` fails. -/
def shorten_cros_defconfig (defconfig : String) : Option String :=
  (crosMatch defconfig).map fun g =>
    let frag : String :=
      match g.frag with
      | some f => ⟨plusToDash (stripPlus f.data)⟩
      | none => ""
    let flav := lookupOrSelf CROS_FLAVOURS g.flav
    String.intercalate "-" [g.arch, flav, g.kver, frag]

/-- `LavaRuntime._shorten_cros_device_type`. -/
def shorten_cros_device_type (device_type : String) : String :=
  lookupOrSelf CROS_DEVICE_TYPES device_type

/-- The fields of the `params` mapping that this module reads or writes.
The optional fields model keys that may be absent from the dictionary. -/
structure Params where
  tree : String
  git_branch : String
  git_describe : String
  arch : String
  build_environment : String
  device_type : String
  plan : String
  name : String
  defconfig_full : String
  callback : Option String := none
  callback_url : Option String := none
  callback_dataset : Option String := none
  callback_type : Option String := none
  callback_name : Option String := none
deriving DecidableEq

/-- Python `s.replace('/', '-')`: a single-character pattern, so a
character-wise substitution. -/
def replaceSlash (s : String) : String :=
  ⟨s.data.map fun c => if c = '/' then '-' else c⟩

/-- Python `s.startswith(pre)`: the characters of `pre` head the
characters of `s`. -/
def startsWithLit (s pre : String) : Bool :=
  (dropLit pre.data s.data).isSome

/-- Python-style suffix test: the characters of `suf` end the characters
of `s`. -/
def endsWithLit (s suf : String) : Bool :=
  (dropLit suf.data.reverse s.data.reverse).isSome

/-- `LavaRuntime._shorten_cros_name`.  `none` models the exception
propagating out of `_shorten_cros_defconfig` on a failed match. -/
def shorten_cros_name (p : Params) : Option String :=
  if startsWithLit p.defconfig_full "cros:" then
    (shorten_cros_defconfig p.defconfig_full).map fun d =>
      replaceSlash (String.intercalate "-"
        [p.tree, p.git_branch, p.git_describe, p.arch, d,
         p.build_environment, shorten_cros_device_type p.device_type, p.plan])
  else some p.name

/-- `LavaRuntime.job_file_name`: `'.'.join([params['name'], 'yaml'])`. -/
def job_file_name (p : Params) : String :=
  String.intercalate "." [p.name, "yaml"]

/-- The priority-related fields of the runtime (lab) configuration.
`none` models a field set to Python `None` (or absent). -/
structure LabConfig where
  priority : Option Int
  priority_min : Option Int
  priority_max : Option Int
deriving DecidableEq

/-- Python truthiness of an optional integer: `None` and `0` are falsy. -/
def truthyInt : Option Int → Bool
  | none => false
  | some n => n != 0

/-- `LavaRuntime._get_priority`.  `planPriority` is
`plan_config.params.get('priority', 20)` before the default is applied.
Python evaluates `int(priority * s / 100)` and
`int(priority * (max - min) / 100 + min)` with float division and `int()`
truncation toward zero; on the exact integer numerators this is
`Int.tdiv` by 100 (the float rounding cannot move the quotient across an
integer at these magnitudes). -/
def get_priority (cfg : LabConfig) (planPriority : Option Int) : Int :=
  let priority := planPriority.getD 20
  if truthyInt cfg.priority then
    Int.tdiv (priority * cfg.priority.getD 0) 100
  else
    match cfg.priority_max, cfg.priority_min with
    | some pmax, some pmin =>
      Int.tdiv (priority * (pmax - pmin) + 100 * pmin) 100
    | _, _ => priority

/-- The callback options mapping: `id` and `type` are read with `.get`
(absent allowed), `url` and `dataset` with mandatory indexing. -/
structure CallbackOpts where
  id : Option String
  type : Option String
  url : String
  dataset : String
deriving DecidableEq

/-- `LavaRuntime._add_callback_params`: returns the updated `params`
(the code mutates the dictionary in place). -/
def add_callback_params (p : Params) (opts : CallbackOpts) : Params :=
  match opts.id with
  | none => p
  | some cid =>
    if cid = "" then p
    else
      let lava_cb := if p.plan = "boot" then "boot" else "test"
      let cbName := String.intercalate "/" ["lava", lava_cb]
      let p₁ :=
        if opts.type = some "kernelci" then { p with callback_name := some cbName }
        else p
      { p₁ with
        callback := some cid
        callback_url := some opts.url
        callback_dataset := some opts.dataset
        callback_type := opts.type }

/-! ## Helper lemmas -/

/-- On nonnegative numerators and the positive denominator 100, the code's
truncating division agrees with the euclidean division `/` on `Int`. -/
theorem tdiv_hundred_eq_ediv {a : Int} (ha : 0 ≤ a) :
    Int.tdiv a 100 = a / 100 :=
  Int.tdiv_eq_ediv ha (by norm_num)

/-- The floor division by 100 agrees with the euclidean division `/`. -/
theorem fdiv_hundred_eq_ediv (a : Int) :
    Int.fdiv a 100 = a / 100 :=
  Int.fdiv_eq_ediv a (by norm_num)

/-! ## Claims about `_get_priority` -/

/-- C1 (counterexample): the claim quantifies the flat scale factor `s`
over [0,100], but at `s = 0` the code's truthiness test
`if self.config.priority:` skips the flat branch and (with no min/max
range configured) returns the nominal priority 20 unchanged, not
`floor(20 * 0 / 100) = 0`. -/
theorem get_priority_flat_zero_cex :
    get_priority ⟨some 0, none, none⟩ (some 20) ≠ Int.fdiv (20 * 0) 100 := by
  decide

/-- C1 (amended): for every nominal plan priority `p` in [0,100] and a
flat priority scale factor `s` in [1,100] (a zero factor is falsy and
disables the flat branch), `_get_priority` returns
`floor(p * s / 100)`, which lies in `[0, p]`; any configured min/max
range is ignored. -/
theorem get_priority_flat_scaled (p s : Int) (mn mx : Option Int)
    (hp0 : 0 ≤ p) (hp1 : p ≤ 100) (hs0 : 1 ≤ s) (hs1 : s ≤ 100) :
    get_priority ⟨some s, mn, mx⟩ (some p) = Int.fdiv (p * s) 100 ∧
    0 ≤ get_priority ⟨some s, mn, mx⟩ (some p) ∧
    get_priority ⟨some s, mn, mx⟩ (some p) ≤ p := by
  have hs : s ≠ 0 := by omega
  have hnum : 0 ≤ p * s := mul_nonneg hp0 (by omega)
  have hcode : get_priority ⟨some s, mn, mx⟩ (some p) = Int.tdiv (p * s) 100 := by
    simp [get_priority, truthyInt, hs]
  rw [hcode, tdiv_hundred_eq_ediv hnum, fdiv_hundred_eq_ediv]
  refine ⟨rfl, Int.ediv_nonneg hnum (by norm_num), ?_⟩
  have hle : p * s ≤ p * 100 := mul_le_mul_of_nonneg_left hs1 hp0
  calc p * s / 100 ≤ p * 100 / 100 := Int.ediv_le_ediv (by norm_num) hle
    _ = p := Int.mul_ediv_cancel p (by norm_num)

/-- C1 (witness): at `p = 20`, `s = 50` the flat mode yields
`floor(20 * 50 / 100) = 10`, within `[0, 20]`. -/
theorem get_priority_flat_scaled_witness :
    get_priority ⟨some 50, none, none⟩ (some 20) = Int.fdiv (20 * 50) 100 ∧
    0 ≤ get_priority ⟨some 50, none, none⟩ (some 20) ∧
    get_priority ⟨some 50, none, none⟩ (some 20) ≤ 20 :=
  get_priority_flat_scaled 20 50 none none (by norm_num) (by norm_num)
    (by norm_num) (by norm_num)

/-- C4 (counterexample): the claim asserts the effective priority equals
the floor of `p * (max - min) / 100 + min` whenever `min ≤ max`, but
Python's `int()` truncates toward zero: at `p = 1`, `min = -1`,
`max = 49` the code returns `int(-0.5) = 0` while the floor is `-1`. -/
theorem get_priority_range_floor_cex :
    get_priority ⟨none, some (-1), some 49⟩ (some 1) ≠
      Int.fdiv (1 * (49 - (-1)) + 100 * (-1)) 100 := by
  decide

/-- C4 (amended): for every nominal plan priority `p` in [0,100], if the
runtime config defines no flat scale factor but defines both
`priority_min` and `priority_max` with `0 ≤ priority_min ≤ priority_max`
(for a negative `priority_min` the code truncates toward zero instead of
flooring), the effective priority equals
`floor(p * (priority_max - priority_min) / 100 + priority_min)` and lies
in `[priority_min, priority_max]`. -/
theorem get_priority_range_scaled (p mn mx : Int)
    (hp0 : 0 ≤ p) (hp1 : p ≤ 100) (h0 : 0 ≤ mn) (hle : mn ≤ mx) :
    get_priority ⟨none, some mn, some mx⟩ (some p) =
      Int.fdiv (p * (mx - mn) + 100 * mn) 100 ∧
    mn ≤ get_priority ⟨none, some mn, some mx⟩ (some p) ∧
    get_priority ⟨none, some mn, some mx⟩ (some p) ≤ mx := by
  have hnum : 0 ≤ p * (mx - mn) + 100 * mn := by
    have := mul_nonneg hp0 (by omega : (0 : Int) ≤ mx - mn)
    omega
  have hcode : get_priority ⟨none, some mn, some mx⟩ (some p) =
      Int.tdiv (p * (mx - mn) + 100 * mn) 100 := by
    simp [get_priority, truthyInt]
  rw [hcode, tdiv_hundred_eq_ediv hnum, fdiv_hundred_eq_ediv]
  refine ⟨rfl, ?_, ?_⟩
  · have hlo : 100 * mn ≤ p * (mx - mn) + 100 * mn := by
      have := mul_nonneg hp0 (by omega : (0 : Int) ≤ mx - mn)
      omega
    calc mn = mn * 100 / 100 := (Int.mul_ediv_cancel mn (by norm_num)).symm
      _ = 100 * mn / 100 := by rw [mul_comm]
      _ ≤ (p * (mx - mn) + 100 * mn) / 100 := Int.ediv_le_ediv (by norm_num) hlo
  · have hhi : p * (mx - mn) + 100 * mn ≤ 100 * mx := by
      have := mul_le_mul_of_nonneg_right hp1 (by omega : (0 : Int) ≤ mx - mn)
      omega
    calc (p * (mx - mn) + 100 * mn) / 100 ≤ 100 * mx / 100 :=
        Int.ediv_le_ediv (by norm_num) hhi
      _ = mx * 100 / 100 := by rw [mul_comm]
      _ = mx := Int.mul_ediv_cancel mx (by norm_num)

/-- C4 (witness): at `p = 20`, `min = 10`, `max = 30` the range mode
yields `floor(20 * 20 / 100 + 10) = 14`, within `[10, 30]`. -/
theorem get_priority_range_scaled_witness :
    get_priority ⟨none, some 10, some 30⟩ (some 20) =
      Int.fdiv (20 * (30 - 10) + 100 * 10) 100 ∧
    10 ≤ get_priority ⟨none, some 10, some 30⟩ (some 20) ∧
    get_priority ⟨none, some 10, some 30⟩ (some 20) ≤ 30 :=
  get_priority_range_scaled 20 10 30 (by norm_num) (by norm_num)
    (by norm_num) (by norm_num)

/-- C6 (counterexample): the claim asserts the flat scale factor takes
precedence and is applied whenever both modes are configured, but a
configured flat factor of 0 is falsy, so with `s = 0`, `min = 10`,
`max = 30`, `p = 20` the code applies the range mode and returns 14,
not `floor(20 * 0 / 100) = 0`. -/
theorem get_priority_precedence_cex :
    get_priority ⟨some 0, some 10, some 30⟩ (some 20) ≠ Int.fdiv (20 * 0) 100 := by
  decide

/-- C6 (amended): the nominal priority defaults to 20 when the plan config
does not supply one; when both a nonzero flat scale factor and a min/max
range are configured, the flat factor takes precedence and is applied;
when neither mode is configured, the effective priority is the nominal
priority unchanged. -/
theorem get_priority_modes :
    (∀ cfg : LabConfig, get_priority cfg none = get_priority cfg (some 20)) ∧
    (∀ p s mn mx : Int, s ≠ 0 →
      get_priority ⟨some s, some mn, some mx⟩ (some p) = Int.tdiv (p * s) 100) ∧
    (∀ p : Int, get_priority ⟨none, none, none⟩ (some p) = p) := by
  refine ⟨fun cfg => rfl, fun p s mn mx hs => ?_, fun p => rfl⟩
  simp [get_priority, truthyInt, hs]

/-- C6 (witness): with flat factor 50 and range (1, 99) both configured
and `p = 20`, the flat mode wins: the result is
`int(20 * 50 / 100) = 10`, not a value computed from the range. -/
theorem get_priority_modes_witness :
    get_priority ⟨some 50, some 1, some 99⟩ (some 20) = Int.tdiv (20 * 50) 100 :=
  get_priority_modes.2.1 20 50 1 99 (by norm_num)

/-- C9: a flat priority scale factor configured as 0 is falsy in the
code's `if self.config.priority:` test, so the flat branch is skipped:
with a min/max range configured the range mode applies exactly as if the
flat factor were unset, and with no range configured the nominal priority
is returned unchanged (at the default `p = 20` the result is 20, not
`floor(20 * 0 / 100) = 0`). -/
theorem get_priority_zero_flat_falls_through (p mn mx : Int) :
    get_priority ⟨some 0, some mn, some mx⟩ (some p) =
      get_priority ⟨none, some mn, some mx⟩ (some p) ∧
    get_priority ⟨some 0, none, none⟩ (some p) = p ∧
    get_priority ⟨some 0, none, none⟩ (some 20) = 20 :=
  ⟨rfl, rfl, rfl⟩

/-! ## Claims about the CrOS name shortening -/

/-- C2 (counterexample): for the claimed input
`cros://chromeos-5.15/chromiumos-arm64/foo.flavour.config+bar` the second
path segment `chromiumos-arm64` contains a `'-'`, which the second regex
group `([a-z0-9_]+)` cannot match, so `CROS_CONFIG_RE.match` fails and
`_shorten_cros_defconfig` raises instead of returning any shortened
segment. -/
theorem shorten_cros_defconfig_cex :
    shorten_cros_defconfig
      "cros://chromeos-5.15/chromiumos-arm64/foo.flavour.config+bar" = none := by
  rfl

/-- C2 (amended): the flavour is the base name of the *third* path
segment, not the second; for
`cros://chromeos-5.15/arm64/chromiumos-arm64.flavour.config+bar` the
flavour `chromiumos-arm64` is looked up to `arm64`, the fragment `bar` is
kept, and the result is the second path segment, the looked-up short
flavour code, the kernel version and the fragment joined with `'-'`:
`arm64-arm64-5.15-bar`. -/
theorem shorten_cros_defconfig_example :
    shorten_cros_defconfig
      "cros://chromeos-5.15/arm64/chromiumos-arm64.flavour.config+bar" =
      some "arm64-arm64-5.15-bar" := by
  rfl

/-- C3: whenever `defconfig_full` starts with the recognized `cros:`
marker but `CROS_CONFIG_RE` fails to match it, `_shorten_cros_defconfig`
raises (modelled as `none`) and `_shorten_cros_name` propagates the
error instead of returning any (partial) job name. -/
theorem shorten_cros_malformed (p : Params)
    (h1 : startsWithLit p.defconfig_full "cros:" = true)
    (h2 : crosMatch p.defconfig_full = none) :
    shorten_cros_defconfig p.defconfig_full = none ∧
    shorten_cros_name p = none := by
  have hd : shorten_cros_defconfig p.defconfig_full = none := by
    simp [shorten_cros_defconfig, h2]
  exact ⟨hd, by simp [shorten_cros_name, h1, hd]⟩

/-- A concrete `params` whose CrOS defconfig lacks the
`.flavour.config` suffix entirely. -/
def malformedParams : Params :=
  { tree := "chromiumos", git_branch := "chromeos-5.15",
    git_describe := "v5.15.139", arch := "arm64",
    build_environment := "gcc-10", device_type := "qemu_x86_64-uefi-chromeos",
    plan := "baseline", name := "some-name",
    defconfig_full := "cros://chromeos-5.15/arm64/foo" }

/-- C3 (witness): `cros://chromeos-5.15/arm64/foo` starts with `cros:`
and fails the pattern, and both shortening steps yield the error. -/
theorem shorten_cros_malformed_witness :
    shorten_cros_defconfig malformedParams.defconfig_full = none ∧
    shorten_cros_name malformedParams = none :=
  shorten_cros_malformed malformedParams rfl rfl

/-- C10: the regex's unescaped dots and missing end anchor make the
match lax: `cros://chromeos-5.15/arm64/fooXflavourYconfig` (arbitrary
characters in place of the two dots, no literal `.flavour.config`
anywhere) and `cros://chromeos-5.15/arm64/foo.flavour.configEXTRA`
(trailing text after the suffix) both start with `cros:`, neither ends
with the literal `.flavour.config`, yet `_shorten_cros_defconfig`
succeeds on both, returning `arm64-foo-5.15-`. -/
theorem shorten_cros_defconfig_lax :
    (startsWithLit "cros://chromeos-5.15/arm64/fooXflavourYconfig" "cros:" = true ∧
     endsWithLit "cros://chromeos-5.15/arm64/fooXflavourYconfig" ".flavour.config" = false ∧
     shorten_cros_defconfig "cros://chromeos-5.15/arm64/fooXflavourYconfig" =
       some "arm64-foo-5.15-") ∧
    (startsWithLit "cros://chromeos-5.15/arm64/foo.flavour.configEXTRA" "cros:" = true ∧
     endsWithLit "cros://chromeos-5.15/arm64/foo.flavour.configEXTRA" ".flavour.config" = false ∧
     shorten_cros_defconfig "cros://chromeos-5.15/arm64/foo.flavour.configEXTRA" =
       some "arm64-foo-5.15-") :=
  ⟨⟨rfl, rfl, rfl⟩, ⟨rfl, rfl, rfl⟩⟩

/-- The three-entry device-type lookup, written out as the case split the
spec describes: known long device-type strings map to their short codes,
anything else passes through unchanged. -/
theorem shorten_cros_device_type_eq (dt : String) :
    shorten_cros_device_type dt =
      if dt = "hp-x360-12b-ca0500na-n4000-octopus_chromeos" then "octopus-n4000"
      else if dt = "hp-x360-12b-ca0010nr-n4020-octopus_chromeos" then "octopus-n4020"
      else if dt = "qemu_x86_64-uefi-chromeos" then "qemu-x86"
      else dt := by
  by_cases h1 : dt = "hp-x360-12b-ca0500na-n4000-octopus_chromeos"
  · subst h1; rfl
  by_cases h2 : dt = "hp-x360-12b-ca0010nr-n4020-octopus_chromeos"
  · subst h2; rfl
  by_cases h3 : dt = "qemu_x86_64-uefi-chromeos"
  · subst h3; rfl
  have e1 : (dt == "hp-x360-12b-ca0500na-n4000-octopus_chromeos") = false := by
    simp [h1]
  have e2 : (dt == "hp-x360-12b-ca0010nr-n4020-octopus_chromeos") = false := by
    simp [h2]
  have e3 : (dt == "qemu_x86_64-uefi-chromeos") = false := by
    simp [h3]
  simp [shorten_cros_device_type, lookupOrSelf, CROS_DEVICE_TYPES,
    List.lookup, e1, e2, e3, h1, h2, h3]

/-- C5: if `defconfig_full` starts with `cros:` (and the defconfig
shortening succeeds, yielding `d`), the job name is the `'-'`-join of
tree, git_branch, git_describe, arch, `d`, build_environment, the
table-shortened device type and plan, with every `'/'` then replaced by
`'-'`; without the `cros:` marker the job name is `params['name']`
unchanged. -/
theorem shorten_cros_name_spec (p : Params) :
    (startsWithLit p.defconfig_full "cros:" = true →
      ∀ d, shorten_cros_defconfig p.defconfig_full = some d →
        shorten_cros_name p = some (replaceSlash (String.intercalate "-"
          [p.tree, p.git_branch, p.git_describe, p.arch, d,
           p.build_environment,
           (if p.device_type = "hp-x360-12b-ca0500na-n4000-octopus_chromeos" then "octopus-n4000"
            else if p.device_type = "hp-x360-12b-ca0010nr-n4020-octopus_chromeos" then "octopus-n4020"
            else if p.device_type = "qemu_x86_64-uefi-chromeos" then "qemu-x86"
            else p.device_type),
           p.plan]))) ∧
    (startsWithLit p.defconfig_full "cros:" = false →
      shorten_cros_name p = some p.name) := by
  constructor
  · intro h1 d hd
    rw [← shorten_cros_device_type_eq]
    simp [shorten_cros_name, h1, hd]
  · intro h1
    simp [shorten_cros_name, h1]

/-- A concrete CrOS `params` for the name-shortening witness. -/
def crosParams : Params :=
  { tree := "chromiumos", git_branch := "chromeos-5.15",
    git_describe := "v5.15.139", arch := "arm64",
    build_environment := "gcc-10", device_type := "qemu_x86_64-uefi-chromeos",
    plan := "baseline", name := "unused-name",
    defconfig_full := "cros://chromeos-5.15/arm64/chromiumos-arm64.flavour.config+bar" }

/-- C5 (witness): on `crosParams` the synthesized job name is the join of
the eight fields with the device type shortened to `qemu-x86`. -/
theorem shorten_cros_name_spec_witness :
    shorten_cros_name crosParams =
      some "chromiumos-chromeos-5.15-v5.15.139-arm64-arm64-arm64-5.15-bar-gcc-10-qemu-x86-baseline" := by
  have h := (shorten_cros_name_spec crosParams).1 rfl "arm64-arm64-5.15-bar" rfl
  exact h

/-! ## Claims about callback injection and the job file name -/

/-- C7: with a non-empty callback `id`, `_add_callback_params` adds
`callback`, `callback_url`, `callback_dataset` and `callback_type` from
the options, and adds `callback_name` (`lava/boot` when the plan is
`boot`, else `lava/test`) exactly when the options' type is `kernelci`;
with the `id` absent or empty, `params` is left entirely unchanged. -/
theorem add_callback_params_spec (p : Params) (o : CallbackOpts) :
    ((o.id = none ∨ o.id = some "") → add_callback_params p o = p) ∧
    (∀ cid, o.id = some cid → cid ≠ "" →
      add_callback_params p o =
        { p with
          callback := some cid
          callback_url := some o.url
          callback_dataset := some o.dataset
          callback_type := o.type
          callback_name :=
            if o.type = some "kernelci" then
              some (if p.plan = "boot" then "lava/boot" else "lava/test")
            else p.callback_name }) := by
  constructor
  · rintro (h | h) <;> simp [add_callback_params, h]
  · rintro cid h hne
    by_cases ht : o.type = some "kernelci"
    · by_cases hb : p.plan = "boot" <;>
        simp [add_callback_params, h, hne, ht, hb] <;> rfl
    · simp [add_callback_params, h, hne, ht]

/-- A concrete `params` for the callback witness (plan `boot`). -/
def bootParams : Params :=
  { tree := "mainline", git_branch := "master", git_describe := "v6.6",
    arch := "x86_64", build_environment := "gcc-10",
    device_type := "qemu", plan := "boot", name := "boot-job",
    defconfig_full := "x86_64_defconfig" }

/-- Concrete callback options of type `kernelci` with a non-empty id. -/
def kciOpts : CallbackOpts :=
  { id := some "kernelci-callback", type := some "kernelci",
    url := "https://api.example.com/callback", dataset := "all" }

/-- C7 (witness): on `bootParams` and `kciOpts` the injection sets the
four callback fields and `callback_name = "lava/boot"`. -/
theorem add_callback_params_spec_witness :
    add_callback_params bootParams kciOpts =
      { bootParams with
        callback := some "kernelci-callback"
        callback_url := some "https://api.example.com/callback"
        callback_dataset := some "all"
        callback_type := some "kernelci"
        callback_name :=
          if kciOpts.type = some "kernelci" then
            some (if bootParams.plan = "boot" then "lava/boot" else "lava/test")
          else bootParams.callback_name } :=
  (add_callback_params_spec bootParams kciOpts).2 "kernelci-callback" rfl
    (by decide)

/-- C8: `job_file_name` returns `params['name'] + ".yaml"` for every
non-empty name without embedded `'/'` path separators, and is
deterministic: it depends only on `params['name']`. -/
theorem job_file_name_spec (p : Params) (h1 : p.name ≠ "")
    (h2 : (p.name.data.contains '/') = false) :
    job_file_name p = p.name ++ ".yaml" ∧
    ∀ q : Params, q.name = p.name → job_file_name q = job_file_name p := by
  refine ⟨?_, fun q hq => by simp [job_file_name, hq]⟩
  show String.intercalate "." [p.name, "yaml"] = p.name ++ ".yaml"
  have : String.intercalate "." [p.name, "yaml"] = p.name ++ "." ++ "yaml" := rfl
  rw [this, String.append_assoc]
  rfl

/-- C8 (witness): the concrete name `boot-job` yields `boot-job.yaml`. -/
theorem job_file_name_spec_witness :
    job_file_name bootParams = bootParams.name ++ ".yaml" :=
  (job_file_name_spec bootParams (by decide) (by decide)).1
